import Mathlib

/-!
Shallow embedding of the real-time chat/notification core of the portal:
the room registry, the WebSocket frame handlers (join / message / edit /
delete / react), the room-creation HTTP route with its global `new_room`
broadcast, the Drizzle-backed message store (`DbStorage`), and the web-push
fanout.  Definitions follow `src/server/routes.ts`, the storage layer
(`DbStorage`), the schema, and `src/server/webpush.ts`.
-/

namespace Chat

/-- JavaScript `x || d` for an optional string field: `undefined`/`null` and
the empty string are falsy and fall through to the default. -/
def jsOr (o : Option String) (d : String) : String :=
  match o with
  | none => d
  | some s => if s = "" then d else s

/-- JavaScript `x || null` for an optional string field: `undefined` and the
empty string both become `null`. -/
def jsOrNull (o : Option String) : Option String :=
  match o with
  | none => none
  | some s => if s = "" then none else some s

/-- JavaScript `x || null` for an optional numeric timestamp field: `0` is
falsy and becomes `null`. -/
def jsOrNullNat (o : Option Nat) : Option Nat :=
  match o with
  | none => none
  | some n => if n = 0 then none else some n

/-- Key lookup in a JS object / `Map` viewed as an insertion-ordered
association list. -/
def assocGet {β : Type} : List (String × β) → String → Option β
  | [], _ => none
  | (k', v) :: rest, k => if k' = k then some v else assocGet rest k

/-- Key assignment in a JS object / `Map`: overwrite the existing binding in
place, or append a new binding at the end. -/
def assocSet {β : Type} : List (String × β) → String → β → List (String × β)
  | [], k, v => [(k, v)]
  | (k', v') :: rest, k, v =>
      if k' = k then (k, v) :: rest else (k', v') :: assocSet rest k v

/-- A row of the `messages` table (shared schema), with ids and timestamps
abstracted to naturals and the JSON `reactions` object as an association
list from reaction name to count. -/
structure Message where
  id : Nat
  roomId : String
  sender : String
  content : String
  formatting : Option String
  imageUrl : Option String
  imageExpiry : Option Nat
  replyTo : Option String
  edited : Bool
  reactions : List (String × Nat)
  createdAt : Nat
deriving DecidableEq

/-- A row of the `rooms` table. -/
structure Room where
  id : String
  name : String
  roomType : String
  departmentName : Option String
  createdBy : String
deriving DecidableEq

/-- A row of the `activity_logs` table (details kept as the two fields the
room-creation route records). -/
structure ActivityLog where
  userId : String
  action : String
  detailsRoomId : String
  detailsRoomName : String
deriving DecidableEq

/-- A row of the `push_subscriptions` table, with the JSON `keys` object
split into its two fields as `sendPushNotification` reads them. -/
structure PushSub where
  userId : String
  endpoint : String
  p256dh : String
  auth : String
deriving DecidableEq

/-- The ordering used by `getMessagesByRoom`: `orderBy(desc(createdAt))`,
newest first. -/
def newestFirst (a b : Message) : Prop :=
  b.createdAt ≤ a.createdAt

instance : DecidableRel newestFirst :=
  fun a b => Nat.decLe b.createdAt a.createdAt

instance : IsTotal Message newestFirst :=
  ⟨fun a b => Nat.le_total b.createdAt a.createdAt⟩

instance : IsTrans Message newestFirst :=
  ⟨fun _ _ _ hab hbc => Nat.le_trans hbc hab⟩

/-- `DbStorage.getMessage`: `select ... where eq(id) limit 1` — the first
row with the given id. -/
def getMessage (store : List Message) (id : Nat) : Option Message :=
  store.find? (fun m => m.id == id)

/-- `DbStorage.getMessagesByRoom`: rows of the room ordered newest first,
limited to `limit` rows. -/
def getMessagesByRoom (store : List Message) (roomId : String) (limit : Nat) :
    List Message :=
  (List.insertionSort newestFirst (store.filter (fun m => m.roomId == roomId))).take limit

/-- The partial update object passed to `DbStorage.updateMessage` at the two
WebSocket call sites: `{content, edited}` on edit and `{reactions}` on
react. -/
structure MessageUpdate where
  content : Option String
  edited : Option Bool
  reactions : Option (List (String × Nat))
deriving DecidableEq

/-- The update object `{content: ..., edited: true}` the edit handler
persists. -/
def editUpdate (c : String) : MessageUpdate :=
  { content := some c, edited := some true, reactions := none }

/-- The update object `{reactions}` the react handler persists. -/
def reactUpdate (rs : List (String × Nat)) : MessageUpdate :=
  { content := none, edited := none, reactions := some rs }

/-- Applying a partial update to one row (`db.update(...).set(data)`). -/
def applyUpdate (u : MessageUpdate) (m : Message) : Message :=
  { m with
    content := u.content.getD m.content
    edited := u.edited.getD m.edited
    reactions := u.reactions.getD m.reactions }

/-- `DbStorage.updateMessage`: update every row matching the id. -/
def updateMessage (store : List Message) (id : Nat) (u : MessageUpdate) :
    List Message :=
  store.map (fun m => if m.id == id then applyUpdate u m else m)

/-- `DbStorage.deleteMessage`: delete every row matching the id. -/
def deleteMessage (store : List Message) (id : Nat) : List Message :=
  store.filter (fun m => !(m.id == id))

/-- `DbStorage.getPushSubscriptionsByUser`: all rows for the user. -/
def getPushSubscriptionsByUser (subs : List PushSub) (userId : String) :
    List PushSub :=
  subs.filter (fun s => s.userId == userId)

/-- `DbStorage.deletePushSubscription`: delete rows matching the endpoint. -/
def deletePushSubscription (subs : List PushSub) (endpoint : String) :
    List PushSub :=
  subs.filter (fun s => !(s.endpoint == endpoint))

/-- JS `reactions[k] || 0`. -/
def reactGet (rs : List (String × Nat)) (k : String) : Nat :=
  match assocGet rs k with
  | some n => n
  | none => 0

/-- One `WebSocketClient` object: the socket id stands for the object
reference, `readyState` is the numeric WebSocket state (`OPEN = 1`), and
`userId` / `roomId` are the two fields the join handler tags onto the
socket. -/
structure Conn where
  id : Nat
  readyState : Nat
  userId : Option String
  roomId : Option String
deriving DecidableEq

/-- `WebSocket.OPEN`. -/
def WS_OPEN : Nat := 1

/-- The session user as the room-creation route reads it. -/
structure SessionUser where
  id : String
  role : String
deriving DecidableEq

/-- The mutable server state: the global connection set (`allClients`, one
record per live socket object), the room registry `rooms : Map<string,
Set<WebSocketClient>>` as an association list of member-id lists, the
database tables touched by the handlers, a flag making every store call
throw (modelling a persistence failure), and the generators for
server-assigned ids and timestamps. -/
structure ServerState where
  clients : List Conn
  rooms : List (String × List Nat)
  store : List Message
  roomRows : List Room
  activityLogs : List ActivityLog
  storeFails : Bool
  nextId : Nat
  now : Nat
deriving DecidableEq

/-- Outbound frames sent over a socket. -/
inductive OutFrame where
  | history (messages : List Message)
  | newMessage (message : Message)
  | messageEdited (messageId : Nat) (content : String)
  | messageDeleted (messageId : Nat)
  | messageReacted (messageId : Nat) (reactions : List (String × Nat))
  | newRoom (room : Room)
deriving DecidableEq

/-- Inbound frames after `JSON.parse`, discriminated on `message.type`;
`other` is a parsed frame whose type matches none of the handlers. -/
inductive InFrame where
  | join (roomId : String) (userId : String)
  | message (roomId : String) (sender : String) (content : String)
      (formatting : Option String) (imageUrl : Option String)
      (imageExpiry : Option Nat) (replyTo : Option String)
  | edit (messageId : Nat) (content : String)
  | delete (messageId : Nat)
  | react (messageId : Nat) (emoji : Option String)
  | other
deriving DecidableEq

/-- Looking a socket object up by its identity. -/
def getConn (st : ServerState) (wsId : Nat) : Option Conn :=
  st.clients.find? (fun c => c.id == wsId)

/-- Reading `ws.roomId` off a socket object. -/
def connRoomId (st : ServerState) (wsId : Nat) : Option String :=
  match getConn st wsId with
  | some c => c.roomId
  | none => none

/-- `client.readyState === WebSocket.OPEN` for the socket object behind an
id. -/
def isOpenConn (st : ServerState) (cid : Nat) : Bool :=
  match getConn st cid with
  | some c => c.readyState == WS_OPEN
  | none => false

/-- `ws.userId = message.userId; ws.roomId = message.roomId` in the join
handler: mutate the two fields of the socket object. -/
def setConnRoom (st : ServerState) (wsId : Nat) (userId roomId : String) :
    ServerState :=
  { st with
    clients := st.clients.map (fun c =>
      if c.id == wsId then { c with userId := some userId, roomId := some roomId }
      else c) }

/-- The join handler's registry update: create the room's set if absent,
then `Set.add` the socket (a set does not duplicate an existing member). -/
def addToRoom (rooms : List (String × List Nat)) (roomId : String)
    (wsId : Nat) : List (String × List Nat) :=
  match assocGet rooms roomId with
  | none => rooms ++ [(roomId, [wsId])]
  | some members =>
      assocSet rooms roomId
        (if members.contains wsId then members else members ++ [wsId])

/-- The broadcast loop: `rooms.get(rid)` and, when the set exists,
`forEach(client => if (client.readyState === OPEN) client.send(frame))`.
The result is the list of `(socket, frame)` sends. -/
def broadcastRoom (st : ServerState) (roomId : Option String) (f : OutFrame) :
    List (Nat × OutFrame) :=
  match roomId with
  | none => []
  | some rid =>
      match assocGet st.rooms rid with
      | none => []
      | some members =>
          (members.filter (fun cid => isOpenConn st cid)).map (fun cid => (cid, f))

/-- A store call that may throw: `storeFails` makes every database call
raise, which the handler's `try`/`catch` then swallows. -/
def stGetMessagesByRoom (st : ServerState) (roomId : String) (limit : Nat) :
    Except Unit (List Message) :=
  if st.storeFails then Except.error () else
    Except.ok (getMessagesByRoom st.store roomId limit)

/-- `storage.getMessage` behind the failure flag. -/
def stGetMessage (st : ServerState) (id : Nat) : Except Unit (Option Message) :=
  if st.storeFails then Except.error () else Except.ok (getMessage st.store id)

/-- The row `storage.createMessage` persists for a message frame: the
frame's fields plus the server-generated id and creation timestamp,
`edited=false` and an empty reaction map. -/
def mkStoredMessage (st : ServerState) (roomId sender content : String)
    (formatting imageUrl : Option String) (imageExpiry : Option Nat)
    (replyTo : Option String) : Message :=
  { id := st.nextId, roomId := roomId, sender := sender, content := content,
    formatting := formatting, imageUrl := imageUrl,
    imageExpiry := imageExpiry, replyTo := replyTo,
    edited := false, reactions := [], createdAt := st.now }

/-- `storage.createMessage`: insert a row with a server-generated id and
creation timestamp and return it. -/
def stCreateMessage (st : ServerState) (roomId sender content : String)
    (formatting imageUrl : Option String) (imageExpiry : Option Nat)
    (replyTo : Option String) : Except Unit (ServerState × Message) :=
  if st.storeFails then Except.error () else
    let m : Message :=
      mkStoredMessage st roomId sender content formatting imageUrl imageExpiry replyTo
    Except.ok ({ st with store := st.store ++ [m], nextId := st.nextId + 1 }, m)

/-- `storage.updateMessage` behind the failure flag. -/
def stUpdateMessage (st : ServerState) (id : Nat) (u : MessageUpdate) :
    Except Unit ServerState :=
  if st.storeFails then Except.error () else
    Except.ok { st with store := updateMessage st.store id u }

/-- `storage.deleteMessage` behind the failure flag. -/
def stDeleteMessage (st : ServerState) (id : Nat) : Except Unit ServerState :=
  if st.storeFails then Except.error () else
    Except.ok { st with store := deleteMessage st.store id }

/-- The body of the `ws.on("message")` handler for one parsed frame
(`src/server/routes.ts`).  A store call that throws is caught by the
handler's `try`/`catch`: mutations made before the throw survive, nothing
after it runs, and no frame is sent.  The result is the state after the
frame together with the list of sends. -/
def handleFrame (st : ServerState) (wsId : Nat) (fr : InFrame) :
    ServerState × List (Nat × OutFrame) :=
  match fr with
  | InFrame.join roomId userId =>
      let st1 := setConnRoom st wsId userId roomId
      let st2 := { st1 with rooms := addToRoom st1.rooms roomId wsId }
      match stGetMessagesByRoom st2 roomId 50 with
      | Except.error _ => (st2, [])
      | Except.ok messages =>
          (st2, [(wsId, OutFrame.history messages.reverse)])
  | InFrame.message roomId sender content formatting imageUrl imageExpiry replyTo =>
      match stCreateMessage st roomId sender content (jsOrNull formatting)
          (jsOrNull imageUrl) (jsOrNullNat imageExpiry) (jsOrNull replyTo) with
      | Except.error _ => (st, [])
      | Except.ok (st1, newMessage) =>
          (st1, broadcastRoom st1 (some roomId) (OutFrame.newMessage newMessage))
  | InFrame.edit messageId content =>
      match stUpdateMessage st messageId (editUpdate content) with
      | Except.error _ => (st, [])
      | Except.ok st1 =>
          (st1, broadcastRoom st1 (connRoomId st1 wsId)
            (OutFrame.messageEdited messageId content))
  | InFrame.delete messageId =>
      match stDeleteMessage st messageId with
      | Except.error _ => (st, [])
      | Except.ok st1 =>
          (st1, broadcastRoom st1 (connRoomId st1 wsId)
            (OutFrame.messageDeleted messageId))
  | InFrame.react messageId emoji =>
      match stGetMessage st messageId with
      | Except.error _ => (st, [])
      | Except.ok none => (st, [])
      | Except.ok (some msg) =>
          let reactionKey := jsOr emoji "heart"
          let reactions :=
            assocSet msg.reactions reactionKey (reactGet msg.reactions reactionKey + 1)
          match stUpdateMessage st messageId (reactUpdate reactions) with
          | Except.error _ => (st, [])
          | Except.ok st1 =>
              (st1, broadcastRoom st1 (connRoomId st1 wsId)
                (OutFrame.messageReacted messageId reactions))
  | InFrame.other => (st, [])

/-- The full `ws.on("message")` callback: `none` stands for raw data on
which `JSON.parse` throws, which the surrounding `try`/`catch` turns into a
no-op. -/
def handleRaw (st : ServerState) (wsId : Nat) (raw : Option InFrame) :
    ServerState × List (Nat × OutFrame) :=
  match raw with
  | none => (st, [])
  | some fr => handleFrame st wsId fr

/-- The `ws.on("close")` handler: if the socket carries a `roomId` and the
registry has that room, delete the socket from that room's set. -/
def handleClose (st : ServerState) (wsId : Nat) : ServerState :=
  match connRoomId st wsId with
  | none => st
  | some rid =>
      match assocGet st.rooms rid with
      | none => st
      | some members =>
          { st with
            rooms := assocSet st.rooms rid (members.filter (fun cid => !(cid == wsId))) }

/-- The HTTP response of the room-creation route. -/
inductive RouteResponse where
  | json (room : Room)
  | forbidden
  | serverError
deriving DecidableEq

/-- `storage.createRoom`: insert a row with a server-generated id. -/
def createRoom (st : ServerState) (name roomType : String)
    (departmentName : Option String) (createdBy : String) : ServerState × Room :=
  let room : Room :=
    { id := toString st.nextId, name := name, roomType := roomType,
      departmentName := departmentName, createdBy := createdBy }
  ({ st with roomRows := st.roomRows ++ [room], nextId := st.nextId + 1 }, room)

/-- `storage.createActivityLog` as the room-creation route calls it. -/
def createActivityLog (st : ServerState) (userId action roomId roomName : String) :
    ServerState :=
  { st with
    activityLogs := st.activityLogs ++
      [{ userId := userId, action := action,
         detailsRoomId := roomId, detailsRoomName := roomName }] }

/-- The `POST /api/rooms` route (`src/unnamed/part_014`): admin check,
create the room, log the action, then broadcast `new_room` to every
socket in the global `allClients` set that is in the open state,
regardless of room membership; a store failure is caught and answered
with a 500 and no broadcast. -/
def postRooms (st : ServerState) (sessionUser : Option SessionUser)
    (name : String) (roomType departmentName : Option String) :
    ServerState × List (Nat × OutFrame) × RouteResponse :=
  match sessionUser with
  | none => (st, [], RouteResponse.forbidden)
  | some u =>
      if u.role ≠ "admin" then (st, [], RouteResponse.forbidden)
      else if st.storeFails then (st, [], RouteResponse.serverError)
      else
        let p := createRoom st name (jsOr roomType "custom")
          (jsOrNull departmentName) u.id
        let st1 := p.1
        let room := p.2
        let st2 := createActivityLog st1 u.id "ROOM_CREATED" room.id name
        let sends := (st2.clients.filter (fun c => c.readyState == WS_OPEN)).map
          (fun c => (c.id, OutFrame.newRoom room))
        (st2, sends, RouteResponse.json room)

/-- The per-subscription body of `sendPushNotification`: try the delivery;
on a rejection whose `statusCode` is 410 delete that subscription from the
store, on any other rejection do nothing.  `deliver` gives each endpoint's
outcome (`Except.error code` is a rejection with that status code). -/
def attemptOne (deliver : String → Except Nat Unit) (subs : List PushSub)
    (sub : PushSub) : List PushSub :=
  match deliver sub.endpoint with
  | Except.ok _ => subs
  | Except.error code =>
      if code = 410 then deletePushSubscription subs sub.endpoint else subs

/-- The fanout loop of `sendPushNotification` over the user's
subscriptions, threading the subscription table and recording every
endpoint whose delivery was attempted. -/
def pushFanout (deliver : String → Except Nat Unit) (queue : List PushSub)
    (subs : List PushSub) : List String × List PushSub :=
  match queue with
  | [] => ([], subs)
  | sub :: rest =>
      let subs1 := attemptOne deliver subs sub
      let r := pushFanout deliver rest subs1
      (sub.endpoint :: r.1, r.2)

/-- `sendPushNotification` (`src/server/webpush.ts`): bail out when VAPID is
not configured; fetch the user's subscriptions (a store failure is caught
by the outer `try`/`catch` and swallowed); attempt each delivery
independently, pruning a subscription exactly on a gone-resource 410
rejection.  The result is the attempted endpoints and the surviving
subscription table; no error ever reaches the caller. -/
def sendPushNotification (vapidConfigured storeOk : Bool)
    (deliver : String → Except Nat Unit) (subs : List PushSub)
    (userId : String) : List String × List PushSub :=
  if !vapidConfigured then ([], subs)
  else if !storeOk then ([], subs)
  else pushFanout deliver (getPushSubscriptionsByUser subs userId) subs

/-- Membership of a socket in a room's registry set. -/
def isMember (rooms : List (String × List Nat)) (rid : String) (cid : Nat) :
    Bool :=
  match assocGet rooms rid with
  | some members => members.contains cid
  | none => false

theorem assocGet_assocSet_self {β : Type} (l : List (String × β)) (k : String)
    (v : β) : assocGet (assocSet l k v) k = some v := by
  induction l with
  | nil => simp [assocSet, assocGet]
  | cons p rest ih =>
      by_cases h : p.1 = k
      · simp [assocSet, assocGet, h]
      · simp [assocSet, assocGet, h, ih]

theorem assocGet_assocSet_ne {β : Type} (l : List (String × β)) (k k' : String)
    (v : β) (h : k' ≠ k) : assocGet (assocSet l k v) k' = assocGet l k' := by
  have hkk' : ¬ k = k' := fun hc => h hc.symm
  induction l with
  | nil => simp [assocSet, assocGet, hkk']
  | cons p rest ih =>
      obtain ⟨pk, pv⟩ := p
      by_cases hp : pk = k
      · subst hp
        simp [assocSet, assocGet, hkk']
      · by_cases hk' : pk = k'
        · simp [assocSet, assocGet, hp, hk', hkk', h]
        · simp [assocSet, assocGet, hp, hk', ih]

theorem assocGet_append_of_none {β : Type} (l l' : List (String × β))
    (k : String) (h : assocGet l k = none) :
    assocGet (l ++ l') k = assocGet l' k := by
  induction l with
  | nil => simp
  | cons p rest ih =>
      by_cases hp : p.1 = k
      · simp [assocGet, hp] at h
      · simp only [assocGet, hp, if_neg hp, List.cons_append] at h ⊢
        exact ih h

theorem assocGet_append_of_some {β : Type} (l l' : List (String × β))
    (k : String) (v : β) (h : assocGet l k = some v) :
    assocGet (l ++ l') k = some v := by
  induction l with
  | nil => simp [assocGet] at h
  | cons p rest ih =>
      by_cases hp : p.1 = k
      · simp [assocGet, hp] at h ⊢
        exact h
      · simp only [assocGet, hp, if_neg hp, List.cons_append] at h ⊢
        exact ih h

theorem reactGet_assocSet_self (rs : List (String × Nat)) (k : String)
    (v : Nat) : reactGet (assocSet rs k v) k = v := by
  simp [reactGet, assocGet_assocSet_self]

theorem reactGet_assocSet_ne (rs : List (String × Nat)) (k k' : String)
    (v : Nat) (h : k' ≠ k) : reactGet (assocSet rs k v) k' = reactGet rs k' := by
  simp [reactGet, assocGet_assocSet_ne rs k k' v h]

/-- Characterisation of one room broadcast: a socket receives the frame
exactly when the target room id is present, the socket is in that room's
set, and its state is open. -/
theorem mem_broadcastRoom {st : ServerState} {orid : Option String}
    {f : OutFrame} {cid : Nat} {f' : OutFrame} :
    (cid, f') ∈ broadcastRoom st orid f ↔
      (f' = f ∧ ∃ rid, orid = some rid ∧ isMember st.rooms rid cid = true ∧
        isOpenConn st cid = true) := by
  cases orid with
  | none => simp [broadcastRoom]
  | some rid =>
      unfold broadcastRoom isMember
      cases h : assocGet st.rooms rid with
      | none => simp [h]
      | some members =>
          simp only [List.mem_map, List.mem_filter, Option.some.injEq, h]
          constructor
          · rintro ⟨c, ⟨hm, hop⟩, hpair⟩
            cases hpair
            exact ⟨rfl, rid, rfl, by simp [h, hm], hop⟩
          · rintro ⟨hf, rid', hr, hm, hop⟩
            cases hr
            subst hf
            exact ⟨cid, ⟨by simpa [h] using hm, hop⟩, rfl⟩

theorem getMessage_updateMessage (store : List Message) (mid : Nat)
    (u : MessageUpdate) (m : Message) (h : getMessage store mid = some m) :
    getMessage (updateMessage store mid u) mid = some (applyUpdate u m) := by
  induction store with
  | nil => simp [getMessage] at h
  | cons x xs ih =>
      by_cases hx : x.id = mid
      · have hb : (x.id == mid) = true := by simp [hx]
        simp [getMessage, List.find?_cons, hb] at h
        simp [getMessage, updateMessage, List.find?_cons, hb, applyUpdate, hx, ← h]
      · have hb : (x.id == mid) = false := by simp [hx]
        simp only [getMessage, List.find?_cons, hb, updateMessage, List.map_cons,
          if_neg (by simp [hx] : ¬ (x.id == mid) = true)] at h ⊢
        have := ih (by simpa [getMessage] using h)
        simpa [getMessage, updateMessage, List.find?_cons, hb] using this

theorem isMember_addToRoom_self (rooms : List (String × List Nat))
    (rid : String) (wsId : Nat) :
    isMember (addToRoom rooms rid wsId) rid wsId = true := by
  unfold addToRoom
  cases h : assocGet rooms rid with
  | none =>
      simp [isMember, assocGet_append_of_none rooms [(rid, [wsId])] rid h,
        assocGet]
  | some members =>
      by_cases hc : wsId ∈ members
      · simp [isMember, assocGet_assocSet_self, hc]
      · simp [isMember, assocGet_assocSet_self, hc]

theorem isMember_addToRoom_preserve (rooms : List (String × List Nat))
    (rid rid' : String) (wsId cid : Nat)
    (h : isMember rooms rid' cid = true) :
    isMember (addToRoom rooms rid wsId) rid' cid = true := by
  unfold isMember at h ⊢
  unfold addToRoom
  by_cases he : rid' = rid
  · subst he
    cases hg : assocGet rooms rid' with
    | none => simp [hg] at h
    | some members =>
        rw [hg] at h
        simp only [hg, assocGet_assocSet_self]
        simp at h
        by_cases hc : wsId ∈ members
        · simp [hc, h]
        · simp [hc, h]
  · cases hg : assocGet rooms rid with
    | none =>
        cases hg' : assocGet rooms rid' with
        | none => simp [hg'] at h
        | some members =>
            rw [hg'] at h
            rw [assocGet_append_of_some rooms [(rid, [wsId])] rid' members hg']
            exact h
    | some members =>
        rw [assocGet_assocSet_ne rooms rid rid' _ he]
        exact h

theorem find?_setConnRoom (l : List Conn) (wsId : Nat) (u r : String) (c : Conn)
    (h : l.find? (fun x => x.id == wsId) = some c) :
    (l.map (fun x =>
        if x.id == wsId then { x with userId := some u, roomId := some r }
        else x)).find? (fun x => x.id == wsId) =
      some { c with userId := some u, roomId := some r } := by
  induction l with
  | nil => simp at h
  | cons x xs ih =>
      by_cases hx : x.id = wsId
      · have hb : (x.id == wsId) = true := by simp [hx]
        simp only [List.find?_cons, hb] at h
        cases h
        simp [List.find?_cons, hx]
      · have hb : (x.id == wsId) = false := by simp [hx]
        simp only [List.find?_cons, hb] at h
        have h2 := ih h
        simp [List.find?_cons, hx] at h2 ⊢
        exact h2

theorem getConn_setConnRoom (st : ServerState) (wsId : Nat) (u r : String)
    (c : Conn) (hc : getConn st wsId = some c) :
    getConn (setConnRoom st wsId u r) wsId =
      some { c with userId := some u, roomId := some r } := by
  have := find?_setConnRoom st.clients wsId u r c hc
  simpa [getConn, setConnRoom] using this

/-- The state part of a join frame is the same whether or not the history
fetch throws: the socket is tagged and registered before the store call. -/
theorem handleFrame_join_state (st : ServerState) (wsId : Nat)
    (roomId userId : String) :
    (handleFrame st wsId (InFrame.join roomId userId)).1 =
      { setConnRoom st wsId userId roomId with
        rooms := addToRoom (setConnRoom st wsId userId roomId).rooms roomId wsId } := by
  by_cases hsf : st.storeFails = true
  · simp [handleFrame, stGetMessagesByRoom, setConnRoom, hsf]
  · have hsf' : st.storeFails = false := by simpa using hsf
    simp [handleFrame, stGetMessagesByRoom, setConnRoom, hsf']

/-- Concrete fixture: a persisted message by "alice" in room "r". -/
def mAlice : Message :=
  { id := 7, roomId := "r", sender := "alice", content := "hi",
    formatting := none, imageUrl := none, imageExpiry := none, replyTo := none,
    edited := false, reactions := [], createdAt := 5 }

/-- Concrete fixture: an open socket owned by "bob", joined to room "r". -/
def connBob : Conn := { id := 1, readyState := 1, userId := some "bob", roomId := some "r" }

/-- Concrete fixture: a second open socket in room "r". -/
def connCara : Conn := { id := 2, readyState := 1, userId := some "cara", roomId := some "r" }

/-- Concrete fixture: a socket in room "r" that is already closing. -/
def connDan : Conn := { id := 3, readyState := 3, userId := some "dan", roomId := some "r" }

/-- Concrete fixture: an open socket joined only to room "q". -/
def connEve : Conn := { id := 4, readyState := 1, userId := some "eve", roomId := some "q" }

/-- Concrete fixture: a server with two rooms, four sockets and one stored
message. -/
def baseState : ServerState :=
  { clients := [connBob, connCara, connDan, connEve],
    rooms := [("r", [1, 2, 3]), ("q", [4])],
    store := [mAlice], roomRows := [], activityLogs := [],
    storeFails := false, nextId := 8, now := 9 }

/-- Concrete fixture: the same server with a failing store. -/
def failState : ServerState := { baseState with storeFails := true }

/-- Claim C2: a message frame for room R is broadcast, as a `new_message`
frame for the freshly persisted message, to exactly the sockets in R's
membership set whose state is open — every open member receives it, a
non-open member is skipped without affecting the rest, and no socket
registered only in another room receives anything. -/
theorem message_broadcast_to_open_room_members (st : ServerState) (wsId : Nat)
    (roomId sender content : String) (formatting imageUrl : Option String)
    (imageExpiry : Option Nat) (replyTo : Option String)
    (hs : st.storeFails = false) :
    ∃ newMessage : Message, newMessage.roomId = roomId ∧
      ∀ cid f, ((cid, f) ∈ (handleFrame st wsId (InFrame.message roomId sender
          content formatting imageUrl imageExpiry replyTo)).2 ↔
        (f = OutFrame.newMessage newMessage ∧ isMember st.rooms roomId cid = true ∧
          isOpenConn st cid = true)) := by
  refine ⟨mkStoredMessage st roomId sender content (jsOrNull formatting)
    (jsOrNull imageUrl) (jsOrNullNat imageExpiry) (jsOrNull replyTo), rfl, ?_⟩
  intro cid f
  have hred : (handleFrame st wsId (InFrame.message roomId sender content
      formatting imageUrl imageExpiry replyTo)).2 =
      broadcastRoom
        { st with
          store := st.store ++ [mkStoredMessage st roomId sender content
            (jsOrNull formatting) (jsOrNull imageUrl) (jsOrNullNat imageExpiry)
            (jsOrNull replyTo)]
          nextId := st.nextId + 1 }
        (some roomId)
        (OutFrame.newMessage (mkStoredMessage st roomId sender content
          (jsOrNull formatting) (jsOrNull imageUrl) (jsOrNullNat imageExpiry)
          (jsOrNull replyTo))) := by
    simp [handleFrame, stCreateMessage, hs]
  rw [hred, mem_broadcastRoom]
  constructor
  · rintro ⟨hf, rid, hr, hmem, hop⟩
    cases hr
    exact ⟨hf, by simpa [isMember] using hmem, by simpa [isOpenConn, getConn] using hop⟩
  · rintro ⟨hf, hmem, hop⟩
    exact ⟨hf, roomId, rfl, by simpa [isMember] using hmem,
      by simpa [isOpenConn, getConn] using hop⟩

/-- Claim C2 witness: in the concrete fixture the broadcast of a message to
room "r" reaches exactly the open members of "r". -/
theorem message_broadcast_to_open_room_members_witness :
    baseState.storeFails = false ∧
    ∃ newMessage : Message, newMessage.roomId = "r" ∧
      ∀ cid f, ((cid, f) ∈ (handleFrame baseState 1 (InFrame.message "r" "bob"
          "yo" none none none none)).2 ↔
        (f = OutFrame.newMessage newMessage ∧ isMember baseState.rooms "r" cid = true ∧
          isOpenConn baseState cid = true)) :=
  ⟨rfl, message_broadcast_to_open_room_members baseState 1 "r" "bob" "yo"
    none none none none rfl⟩

/-- Claim C3: the history reply to a join frame is the store's newest-first
query result reversed — hence ordered oldest-first by creation time — and
its length never exceeds the 50-message window. -/
theorem join_history_capped_oldest_first (st : ServerState) (wsId : Nat)
    (roomId userId : String) (hs : st.storeFails = false) :
    ∃ hist : List Message,
      (handleFrame st wsId (InFrame.join roomId userId)).2 =
        [(wsId, OutFrame.history hist)] ∧
      hist = (getMessagesByRoom st.store roomId 50).reverse ∧
      hist.length ≤ 50 ∧
      List.Pairwise (fun a b => a.createdAt ≤ b.createdAt) hist := by
  refine ⟨(getMessagesByRoom st.store roomId 50).reverse, ?_, rfl, ?_, ?_⟩
  · simp [handleFrame, stGetMessagesByRoom, setConnRoom, hs]
  · rw [List.length_reverse]
    rw [getMessagesByRoom, List.length_take]
    exact Nat.min_le_left _ _
  · have hsorted : List.Pairwise newestFirst
        (List.insertionSort newestFirst
          (st.store.filter (fun m => m.roomId == roomId))) :=
      List.sorted_insertionSort newestFirst _
    have htake : List.Pairwise newestFirst (getMessagesByRoom st.store roomId 50) :=
      hsorted.sublist (List.take_sublist _ _)
    exact List.pairwise_reverse.mpr htake

/-- Claim C3 witness: the concrete join reply for room "r". -/
theorem join_history_capped_oldest_first_witness :
    baseState.storeFails = false ∧
    ∃ hist : List Message,
      (handleFrame baseState 1 (InFrame.join "r" "bob")).2 =
        [(1, OutFrame.history hist)] ∧
      hist = (getMessagesByRoom baseState.store "r" 50).reverse ∧
      hist.length ≤ 50 ∧
      List.Pairwise (fun a b => a.createdAt ≤ b.createdAt) hist :=
  ⟨rfl, join_history_capped_oldest_first baseState 1 "r" "bob" rfl⟩

/-- Claim C4: a react frame for a message id absent from the store is a
complete no-op — the state is unchanged and nothing is broadcast, and the
handler returns normally instead of raising. -/
theorem react_missing_message_noop (st : ServerState) (wsId mid : Nat)
    (emoji : Option String) (hs : st.storeFails = false)
    (hm : getMessage st.store mid = none) :
    handleFrame st wsId (InFrame.react mid emoji) = (st, []) := by
  simp [handleFrame, stGetMessage, hs, hm]

/-- Claim C4 witness: reacting to the unknown id 99 in the concrete fixture
changes nothing and sends nothing. -/
theorem react_missing_message_noop_witness :
    (baseState.storeFails = false ∧ getMessage baseState.store 99 = none) ∧
    handleFrame baseState 1 (InFrame.react 99 (some "heart")) = (baseState, []) :=
  ⟨⟨rfl, by decide⟩, react_missing_message_noop baseState 1 99 (some "heart") rfl (by decide)⟩

/-- Claim C5: after a delete frame for message id `mid`, no subsequent
history fetch for any room returns a message with that id. -/
theorem delete_removes_from_history (st : ServerState) (wsId mid : Nat)
    (roomId : String) (limit : Nat) (hs : st.storeFails = false) :
    ∀ x ∈ getMessagesByRoom
        ((handleFrame st wsId (InFrame.delete mid)).1).store roomId limit,
      x.id ≠ mid := by
  intro x hx
  have h1 : ((handleFrame st wsId (InFrame.delete mid)).1).store =
      deleteMessage st.store mid := by
    simp [handleFrame, stDeleteMessage, hs]
  rw [h1, getMessagesByRoom] at hx
  have hx1 : x ∈ List.insertionSort newestFirst
      ((deleteMessage st.store mid).filter (fun m => m.roomId == roomId)) :=
    (List.take_sublist _ _).subset hx
  rw [List.mem_insertionSort] at hx1
  have hx2 : x ∈ deleteMessage st.store mid := (List.mem_filter.mp hx1).1
  have hx3 := (List.mem_filter.mp hx2).2
  simpa using hx3

/-- Claim C5 witness: deleting the stored message 7 removes it from the
history of room "r". -/
theorem delete_removes_from_history_witness :
    baseState.storeFails = false ∧
    ∀ x ∈ getMessagesByRoom
        ((handleFrame baseState 1 (InFrame.delete 7)).1).store "r" 50,
      x.id ≠ 7 :=
  ⟨rfl, delete_removes_from_history baseState 1 7 "r" 50 rfl⟩

/-- Claim C6: a react frame naming emoji `e` on an existing message bumps
exactly the stored counter for `e` by one and leaves every other reaction
counter of that message unchanged; reactions are not de-duplicated per
user, so two successive "heart" reacts on a message with no reactions
leave the stored "heart" count at 2. -/
theorem react_increments_named_counter (st : ServerState) (wsId mid : Nat)
    (e : String) (m : Message) (hs : st.storeFails = false)
    (hm : getMessage st.store mid = some m) (he : e ≠ "") :
    ∃ m' : Message,
      getMessage ((handleFrame st wsId (InFrame.react mid (some e))).1).store mid =
        some m' ∧
      reactGet m'.reactions e = reactGet m.reactions e + 1 ∧
      ∀ e', e' ≠ e → reactGet m'.reactions e' = reactGet m.reactions e' := by
  have hkey : jsOr (some e) "heart" = e := by simp [jsOr, he]
  refine ⟨{ m with
      reactions := assocSet m.reactions e (reactGet m.reactions e + 1) }, ?_, ?_, ?_⟩
  · have hred : ((handleFrame st wsId (InFrame.react mid (some e))).1).store =
        updateMessage st.store mid
          (reactUpdate (assocSet m.reactions e (reactGet m.reactions e + 1))) := by
      simp [handleFrame, stGetMessage, stUpdateMessage, hs, hm, hkey]
    rw [hred]
    have h2 := getMessage_updateMessage st.store mid
      (reactUpdate (assocSet m.reactions e (reactGet m.reactions e + 1))) m hm
    simpa [applyUpdate, reactUpdate] using h2
  · exact reactGet_assocSet_self m.reactions e (reactGet m.reactions e + 1)
  · intro e' he'
    exact reactGet_assocSet_ne m.reactions e e' (reactGet m.reactions e + 1) he'

/-- Claim C6 witness: a "heart" react on the stored message 7 takes its
"heart" count from 0 to 1 and touches no other counter; iterating the
theorem at the updated state gives count 2 after a second react, which the
final equality checks concretely. -/
theorem react_increments_named_counter_witness :
    (baseState.storeFails = false ∧ getMessage baseState.store 7 = some mAlice ∧
      ("heart" : String) ≠ "") ∧
    (∃ m' : Message,
      getMessage ((handleFrame baseState 1 (InFrame.react 7 (some "heart"))).1).store 7 =
        some m' ∧
      reactGet m'.reactions "heart" = reactGet mAlice.reactions "heart" + 1 ∧
      ∀ e', e' ≠ "heart" → reactGet m'.reactions e' = reactGet mAlice.reactions e') ∧
    (getMessage ((handleFrame ((handleFrame baseState 1
        (InFrame.react 7 (some "heart"))).1) 2
        (InFrame.react 7 (some "heart"))).1).store 7).map
      (fun m => reactGet m.reactions "heart") = some 2 :=
  ⟨⟨rfl, by decide, by decide⟩,
    react_increments_named_counter baseState 1 7 "heart" mAlice rfl (by decide) (by decide),
    by decide⟩

/-- Claim C1 counterexample: socket 1 is owned by "bob" while stored
message 7 was sent by "alice", yet the edit frame from socket 1 overwrites
the stored content, sets the edited flag, and broadcasts `message_edited`
to the room — the handler performs no ownership check. -/
theorem edit_by_non_owner_mutates_and_broadcasts :
    connBob.userId = some "bob" ∧ mAlice.sender = "alice" ∧
    getConn baseState 1 = some connBob ∧
    getMessage baseState.store 7 = some mAlice ∧
    getMessage ((handleFrame baseState 1 (InFrame.edit 7 "changed")).1).store 7 =
      some { mAlice with content := "changed", edited := true } ∧
    (handleFrame baseState 1 (InFrame.edit 7 "changed")).2 ≠ [] := by
  refine ⟨rfl, rfl, by decide, by decide, by decide, by decide⟩

/-- Claim C1 (amended): the edit handler checks no ownership at all — for
every edit frame, whoever the requester is, the stored message's content
is replaced and its edited flag set, and `message_edited` is broadcast to
the open members of the requester's current room. -/
theorem edit_unconditionally_persists_and_broadcasts (st : ServerState)
    (wsId mid : Nat) (c : String) (m : Message) (hs : st.storeFails = false)
    (hm : getMessage st.store mid = some m) :
    getMessage ((handleFrame st wsId (InFrame.edit mid c)).1).store mid =
      some { m with content := c, edited := true } ∧
    ∀ cid f, ((cid, f) ∈ (handleFrame st wsId (InFrame.edit mid c)).2 ↔
      (f = OutFrame.messageEdited mid c ∧ ∃ rid, connRoomId st wsId = some rid ∧
        isMember st.rooms rid cid = true ∧ isOpenConn st cid = true)) := by
  constructor
  · have hred : ((handleFrame st wsId (InFrame.edit mid c)).1).store =
        updateMessage st.store mid (editUpdate c) := by
      simp [handleFrame, stUpdateMessage, hs]
    rw [hred]
    have h2 := getMessage_updateMessage st.store mid (editUpdate c) m hm
    rw [h2]
    simp [applyUpdate, editUpdate]
  · intro cid f
    have hred2 : (handleFrame st wsId (InFrame.edit mid c)).2 =
        broadcastRoom { st with store := updateMessage st.store mid (editUpdate c) }
          (connRoomId { st with store := updateMessage st.store mid (editUpdate c) } wsId)
          (OutFrame.messageEdited mid c) := by
      simp [handleFrame, stUpdateMessage, hs]
    rw [hred2]
    have hroom : connRoomId
        { st with store := updateMessage st.store mid (editUpdate c) } wsId =
        connRoomId st wsId := by
      simp [connRoomId, getConn]
    rw [hroom, mem_broadcastRoom]
    constructor
    · rintro ⟨hf, rid, hr, hmem, hop⟩
      exact ⟨hf, rid, hr, by simpa [isMember] using hmem,
        by simpa [isOpenConn, getConn] using hop⟩
    · rintro ⟨hf, rid, hr, hmem, hop⟩
      exact ⟨hf, rid, hr, by simpa [isMember] using hmem,
        by simpa [isOpenConn, getConn] using hop⟩

/-- Claim C1 (amended) witness: the non-owner edit of message 7 from the
fixture, where the broadcast reaches exactly the open members of room
"r". -/
theorem edit_unconditionally_persists_and_broadcasts_witness :
    (baseState.storeFails = false ∧ getMessage baseState.store 7 = some mAlice) ∧
    (getMessage ((handleFrame baseState 1 (InFrame.edit 7 "changed")).1).store 7 =
      some { mAlice with content := "changed", edited := true } ∧
    ∀ cid f, ((cid, f) ∈ (handleFrame baseState 1 (InFrame.edit 7 "changed")).2 ↔
      (f = OutFrame.messageEdited 7 "changed" ∧ ∃ rid, connRoomId baseState 1 = some rid ∧
        isMember baseState.rooms rid cid = true ∧ isOpenConn baseState cid = true))) :=
  ⟨⟨rfl, by decide⟩,
    edit_unconditionally_persists_and_broadcasts baseState 1 7 "changed" mAlice rfl (by decide)⟩

/-- Claim C7: when an administrator creates a room, the `new_room` frame
carrying the created room record goes to every open socket in the global
connection set — membership in any particular chat room plays no role in
the recipient list. -/
theorem room_creation_broadcasts_globally (st : ServerState) (u : SessionUser)
    (name : String) (roomType departmentName : Option String)
    (hrole : u.role = "admin") (hs : st.storeFails = false) :
    ∃ room : Room,
      (postRooms st (some u) name roomType departmentName).2.2 =
        RouteResponse.json room ∧
      (∀ c ∈ st.clients, c.readyState = WS_OPEN →
        (c.id, OutFrame.newRoom room) ∈
          (postRooms st (some u) name roomType departmentName).2.1) ∧
      (∀ cid f, (cid, f) ∈ (postRooms st (some u) name roomType departmentName).2.1 →
        f = OutFrame.newRoom room ∧
          ∃ c ∈ st.clients, c.id = cid ∧ c.readyState = WS_OPEN) := by
  have hred : (postRooms st (some u) name roomType departmentName).2.1 =
      (st.clients.filter (fun x => x.readyState == WS_OPEN)).map
        (fun x => (x.id, OutFrame.newRoom (createRoom st name (jsOr roomType "custom")
          (jsOrNull departmentName) u.id).2)) := by
    simp [postRooms, hrole, hs, createRoom, createActivityLog]
  refine ⟨(createRoom st name (jsOr roomType "custom")
    (jsOrNull departmentName) u.id).2, ?_, ?_, ?_⟩
  · simp [postRooms, hrole, hs, createRoom, createActivityLog]
  · intro c hc hcopen
    rw [hred, List.mem_map]
    exact ⟨c, List.mem_filter.mpr ⟨hc, by simp [WS_OPEN, hcopen]⟩, rfl⟩
  · intro cid f hmem
    rw [hred, List.mem_map] at hmem
    obtain ⟨c, hcf, hpair⟩ := hmem
    obtain ⟨hc, hop⟩ := List.mem_filter.mp hcf
    cases hpair
    exact ⟨rfl, c, hc, rfl, by simpa [WS_OPEN] using hop⟩

/-- Claim C7 witness: the admin "root" creates a room in the concrete
fixture; all open sockets (1, 2 and 4) receive the `new_room` frame. -/
theorem room_creation_broadcasts_globally_witness :
    (SessionUser.role { id := "u9", role := "admin" } = "admin" ∧
      baseState.storeFails = false) ∧
    ∃ room : Room,
      (postRooms baseState (some { id := "u9", role := "admin" })
          "lounge" none none).2.2 = RouteResponse.json room ∧
      (∀ c ∈ baseState.clients, c.readyState = WS_OPEN →
        (c.id, OutFrame.newRoom room) ∈
          (postRooms baseState (some { id := "u9", role := "admin" })
            "lounge" none none).2.1) ∧
      (∀ cid f, (cid, f) ∈ (postRooms baseState (some { id := "u9", role := "admin" })
          "lounge" none none).2.1 →
        f = OutFrame.newRoom room ∧
          ∃ c ∈ baseState.clients, c.id = cid ∧ c.readyState = WS_OPEN) :=
  ⟨⟨rfl, rfl⟩, room_creation_broadcasts_globally baseState
    { id := "u9", role := "admin" } "lounge" none none rfl rfl⟩

/-- Claim C8: a malformed frame and an unrecognized frame type are ignored
without touching the state; with a failing store, every frame kind ends
with no broadcast; and no frame handler ever changes any socket's ready
state or drops a connection — per-frame errors stay isolated to the
frame. -/
theorem bad_frames_and_store_failures_isolated (st : ServerState) (wsId : Nat) :
    handleRaw st wsId none = (st, []) ∧
    handleFrame st wsId InFrame.other = (st, []) ∧
    (∀ fr, st.storeFails = true → (handleFrame st wsId fr).2 = []) ∧
    (∀ fr, ((handleFrame st wsId fr).1).clients.map Conn.readyState =
      st.clients.map Conn.readyState) := by
  refine ⟨rfl, rfl, ?_, ?_⟩
  · intro fr hf
    cases fr <;>
      simp [handleFrame, stGetMessagesByRoom, stCreateMessage, stGetMessage,
        stUpdateMessage, stDeleteMessage, setConnRoom, hf]
  · intro fr
    have hset : ∀ u r, ((setConnRoom st wsId u r).clients).map Conn.readyState =
        st.clients.map Conn.readyState := by
      intro u r
      simp only [setConnRoom, List.map_map]
      apply List.map_congr_left
      intro c _
      by_cases h : c.id = wsId <;> simp [h]
    cases fr with
    | join roomId userId =>
        rw [handleFrame_join_state]
        exact hset userId roomId
    | message roomId sender content formatting imageUrl imageExpiry replyTo =>
        cases hsf : st.storeFails <;>
          simp [handleFrame, stCreateMessage, hsf]
    | edit messageId content =>
        cases hsf : st.storeFails <;>
          simp [handleFrame, stUpdateMessage, hsf]
    | delete messageId =>
        cases hsf : st.storeFails <;>
          simp [handleFrame, stDeleteMessage, hsf]
    | react messageId emoji =>
        cases hsf : st.storeFails with
        | true => simp [handleFrame, stGetMessage, hsf]
        | false =>
            cases hg : getMessage st.store messageId with
            | none => simp [handleFrame, stGetMessage, hsf, hg]
            | some msg => simp [handleFrame, stGetMessage, stUpdateMessage, hsf, hg]
    | other => rfl

/-- Claim C8 witness: with the failing-store fixture, a message frame
broadcasts nothing, a malformed frame is a no-op, and the join handler
leaves every socket's ready state intact. -/
theorem bad_frames_and_store_failures_isolated_witness :
    failState.storeFails = true ∧
    handleRaw failState 1 none = (failState, []) ∧
    (handleFrame failState 1 (InFrame.message "r" "bob" "x" none none none none)).2 = [] ∧
    ((handleFrame failState 1 (InFrame.join "r" "bob")).1).clients.map Conn.readyState =
      failState.clients.map Conn.readyState :=
  ⟨rfl, (bad_frames_and_store_failures_isolated failState 1).1,
    (bad_frames_and_store_failures_isolated failState 1).2.2.1 _ rfl,
    (bad_frames_and_store_failures_isolated failState 1).2.2.2 _⟩

theorem pushFanout_attempts (deliver : String → Except Nat Unit)
    (queue subs : List PushSub) :
    (pushFanout deliver queue subs).1 = queue.map PushSub.endpoint := by
  induction queue generalizing subs with
  | nil => rfl
  | cons sub rest ih => simp [pushFanout, ih]

theorem mem_attemptOne (deliver : String → Except Nat Unit)
    (subs : List PushSub) (sub s : PushSub) :
    s ∈ attemptOne deliver subs sub ↔
      (s ∈ subs ∧ ¬(sub.endpoint = s.endpoint ∧
        deliver sub.endpoint = Except.error 410)) := by
  unfold attemptOne
  cases hd : deliver sub.endpoint with
  | ok v => simp [hd]
  | error code =>
      by_cases h410 : code = 410
      · subst h410
        simp [hd, deletePushSubscription, List.mem_filter]
        intro _
        constructor
        · intro h heq; rw [heq] at h; simp at h
        · intro h; simpa using fun heq => h heq.symm
      · simp [hd, h410]

theorem mem_pushFanout (deliver : String → Except Nat Unit)
    (queue subs : List PushSub) (s : PushSub) :
    s ∈ (pushFanout deliver queue subs).2 ↔
      (s ∈ subs ∧ ∀ sub ∈ queue,
        ¬(sub.endpoint = s.endpoint ∧ deliver sub.endpoint = Except.error 410)) := by
  induction queue generalizing subs with
  | nil => simp [pushFanout]
  | cons sub rest ih =>
      simp only [pushFanout, ih, mem_attemptOne, List.forall_mem_cons]
      tauto

/-- Claim C9: the push fanout for one user attempts every stored
subscription independently — a failing endpoint never stops the attempts
for the remaining endpoints — and a subscription is pruned exactly when
its own delivery was rejected with the gone-resource status 410; the
function returns normally, so no delivery error reaches the caller. -/
theorem push_fanout_isolates_failures (deliver : String → Except Nat Unit)
    (subs : List PushSub) (userId : String) :
    (sendPushNotification true true deliver subs userId).1 =
      (getPushSubscriptionsByUser subs userId).map PushSub.endpoint ∧
    ∀ s, s ∈ (sendPushNotification true true deliver subs userId).2 ↔
      (s ∈ subs ∧ ∀ sub ∈ getPushSubscriptionsByUser subs userId,
        ¬(sub.endpoint = s.endpoint ∧ deliver sub.endpoint = Except.error 410)) := by
  constructor
  · simp [sendPushNotification, pushFanout_attempts]
  · intro s
    simp [sendPushNotification, mem_pushFanout]

/-- The state after one socket joins room A and then room B without
closing in between. -/
def joinTwice (st : ServerState) (wsId : Nat) (uA roomA uB roomB : String) :
    ServerState :=
  (handleFrame (handleFrame st wsId (InFrame.join roomA uA)).1 wsId
    (InFrame.join roomB uB)).1

/-- Claim C10: a socket that joins room A and then room B is never removed
from A's membership set — it is a member of both sets, an open such socket
receives the broadcasts of both rooms — and the close handler removes it
only from the set of the most recently joined room B, leaving it in A's
set. -/
theorem rejoin_keeps_old_membership (st : ServerState) (wsId : Nat)
    (uA uB roomA roomB : String) (c : Conn) (hAB : roomA ≠ roomB)
    (hc : getConn st wsId = some c) (hopen : c.readyState = WS_OPEN) :
    isMember (joinTwice st wsId uA roomA uB roomB).rooms roomA wsId = true ∧
    isMember (joinTwice st wsId uA roomA uB roomB).rooms roomB wsId = true ∧
    (∀ f : OutFrame,
      (wsId, f) ∈ broadcastRoom (joinTwice st wsId uA roomA uB roomB) (some roomA) f ∧
      (wsId, f) ∈ broadcastRoom (joinTwice st wsId uA roomA uB roomB) (some roomB) f) ∧
    isMember (handleClose (joinTwice st wsId uA roomA uB roomB) wsId).rooms
      roomA wsId = true ∧
    isMember (handleClose (joinTwice st wsId uA roomA uB roomB) wsId).rooms
      roomB wsId = false := by
  have hA := handleFrame_join_state st wsId roomA uA
  have hB := handleFrame_join_state (handleFrame st wsId (InFrame.join roomA uA)).1
    wsId roomB uB
  have hrooms : (joinTwice st wsId uA roomA uB roomB).rooms =
      addToRoom (addToRoom st.rooms roomA wsId) roomB wsId := by
    rw [joinTwice, hB]
    simp [setConnRoom, hA]
  have hmA : isMember (joinTwice st wsId uA roomA uB roomB).rooms roomA wsId = true := by
    rw [hrooms]
    exact isMember_addToRoom_preserve _ roomB roomA wsId wsId
      (isMember_addToRoom_self st.rooms roomA wsId)
  have hmB : isMember (joinTwice st wsId uA roomA uB roomB).rooms roomB wsId = true := by
    rw [hrooms]
    exact isMember_addToRoom_self _ roomB wsId
  have hc1 : getConn (handleFrame st wsId (InFrame.join roomA uA)).1 wsId =
      some { c with userId := some uA, roomId := some roomA } := by
    rw [hA]
    have h2 := getConn_setConnRoom st wsId uA roomA c hc
    simpa [getConn] using h2
  have hc2 : getConn (joinTwice st wsId uA roomA uB roomB) wsId =
      some { c with userId := some uB, roomId := some roomB } := by
    rw [joinTwice, hB]
    have h2 := getConn_setConnRoom (handleFrame st wsId (InFrame.join roomA uA)).1
      wsId uB roomB { c with userId := some uA, roomId := some roomA } hc1
    simpa [getConn] using h2
  have hopen2 : isOpenConn (joinTwice st wsId uA roomA uB roomB) wsId = true := by
    simp [isOpenConn, hc2, hopen]
  refine ⟨hmA, hmB, ?_, ?_, ?_⟩
  · intro f
    exact ⟨mem_broadcastRoom.mpr ⟨rfl, roomA, rfl, hmA, hopen2⟩,
      mem_broadcastRoom.mpr ⟨rfl, roomB, rfl, hmB, hopen2⟩⟩
  · have hcr : connRoomId (joinTwice st wsId uA roomA uB roomB) wsId = some roomB := by
      simp [connRoomId, hc2]
    cases hg : assocGet (joinTwice st wsId uA roomA uB roomB).rooms roomB with
    | none => rw [isMember, hg] at hmB; simp at hmB
    | some members =>
        have hclose : (handleClose (joinTwice st wsId uA roomA uB roomB) wsId).rooms =
            assocSet (joinTwice st wsId uA roomA uB roomB).rooms roomB
              (members.filter (fun cid => !(cid == wsId))) := by
          simp [handleClose, hcr, hg]
        rw [hclose, isMember, assocGet_assocSet_ne _ _ _ _ hAB]
        rw [isMember] at hmA
        exact hmA
  · have hcr : connRoomId (joinTwice st wsId uA roomA uB roomB) wsId = some roomB := by
      simp [connRoomId, hc2]
    cases hg : assocGet (joinTwice st wsId uA roomA uB roomB).rooms roomB with
    | none => rw [isMember, hg] at hmB; simp at hmB
    | some members =>
        have hclose : (handleClose (joinTwice st wsId uA roomA uB roomB) wsId).rooms =
            assocSet (joinTwice st wsId uA roomA uB roomB).rooms roomB
              (members.filter (fun cid => !(cid == wsId))) := by
          simp [handleClose, hcr, hg]
        rw [hclose, isMember, assocGet_assocSet_self]
        simp

/-- Claim C10 witness: in the concrete fixture socket 1 joins "x" then
"y"; it stays in both sets, receives both rooms' broadcasts, and after the
close it is still in "x" but no longer in "y". -/
theorem rejoin_keeps_old_membership_witness :
    (("x" : String) ≠ "y" ∧ getConn baseState 1 = some connBob ∧
      connBob.readyState = WS_OPEN) ∧
    (isMember (joinTwice baseState 1 "bob" "x" "bob" "y").rooms "x" 1 = true ∧
    isMember (joinTwice baseState 1 "bob" "x" "bob" "y").rooms "y" 1 = true ∧
    (∀ f : OutFrame,
      (1, f) ∈ broadcastRoom (joinTwice baseState 1 "bob" "x" "bob" "y") (some "x") f ∧
      (1, f) ∈ broadcastRoom (joinTwice baseState 1 "bob" "x" "bob" "y") (some "y") f) ∧
    isMember (handleClose (joinTwice baseState 1 "bob" "x" "bob" "y") 1).rooms
      "x" 1 = true ∧
    isMember (handleClose (joinTwice baseState 1 "bob" "x" "bob" "y") 1).rooms
      "y" 1 = false) :=
  ⟨⟨by decide, by decide, rfl⟩,
    rejoin_keeps_old_membership baseState 1 "bob" "bob" "x" "y" connBob
      (by decide) (by decide) rfl⟩

end Chat
